import Mathlib

/-!
Shallow embedding of the two libev adapter variants of the NATS C client
(src/unnamed/part_000).  The file models the adapter state record
`natsLibevEvents`, the libev watcher primitives the adapter uses
(`ev_io_start`/`ev_io_stop`/`ev_io_set`, idle and async analogues), and the
four adapter entry points `natsLibev_Attach`, `natsLibev_Read`,
`natsLibev_Write`, `natsLibev_Detach`, in both variants:

* `LibevA` — the first variant in the source: an `ev_io` read watcher, an
  `ev_idle` write watcher, and an `ev_async keepActive` watcher that
  `natsLibev_Read`/`natsLibev_Write` signal with `ev_async_send`.
* `LibevB` — the second variant: two socket-bound `ev_io` watchers and a
  single dispatch callback `natsLibev_ProcessEvent` keyed on the readiness
  bitmask; `natsLibev_Read`/`natsLibev_Write` do not signal the async
  watcher.

Machine state that libev keeps per watcher (its fd, event mask and
active flag) is carried explicitly in the watcher records; libev calls
whose effect is on the reactor loop rather than the watcher record
(`ev_async_send`, `free`, registration order) are recorded in an event
trace returned next to the updated state, so that ordering properties
("signals the wake primitive after toggling") are provable.
-/

set_option linter.unusedVariables false

/-- libev readiness bit for read events (`EV_READ`). -/
def EV_READ : Nat := 1

/-- libev readiness bit for write events (`EV_WRITE`). -/
def EV_WRITE : Nat := 2

/-- The slice of a libev `ev_io` watcher the adapter observes: the bound
file descriptor, the event interest mask and the active flag. -/
structure ev_io where
  fd : Int
  events : Nat
  active : Bool
deriving DecidableEq, Repr

/-- The slice of a libev `ev_idle` watcher the adapter observes.  An idle
watcher has no file descriptor and no readiness mask. -/
structure ev_idle where
  active : Bool
deriving DecidableEq, Repr

/-- The slice of a libev `ev_async` watcher the adapter observes. -/
structure ev_async where
  active : Bool
deriving DecidableEq, Repr

/-- Status codes returned by the adapter entry points. -/
inductive natsStatus where
  | NATS_OK
  | NATS_NO_MEMORY
deriving DecidableEq, Repr

/-- Trace events: the calls an adapter entry point makes against the
reactor (and the allocator), in order. -/
inductive Ev where
  | alloc
  | readSet (fd : Int) (events : Nat)
  | writeSet (fd : Int) (events : Nat)
  | idleSet
  | readStart
  | readStop
  | writeStart
  | writeStop
  | asyncStart
  | asyncStop
  | asyncSend
  | free
deriving DecidableEq, Repr

/-- Client hooks the dispatch callbacks invoke, tagged with the connection
handle they are invoked on. -/
inductive Hook where
  | processRead (nc : Nat)
  | processWrite (nc : Nat)
deriving DecidableEq, Repr

/-- A registration currently enabled with the reactor: socket read
interest, socket write interest, an idle watcher, or an async watcher. -/
inductive Reg where
  | ioRead (fd : Int)
  | ioWrite (fd : Int)
  | idle
  | async
deriving DecidableEq, Repr

/-- `ev_io_start`: activate an io watcher (no-op if already active). -/
def ev_io_start (w : ev_io) : ev_io := { w with active := true }

/-- `ev_io_stop`: deactivate an io watcher (no-op if already inactive). -/
def ev_io_stop (w : ev_io) : ev_io := { w with active := false }

/-- `ev_io_set`: bind an (inactive) io watcher to a descriptor and mask. -/
def ev_io_set (w : ev_io) (fd : Int) (events : Nat) : ev_io :=
  { w with fd := fd, events := events }

/-- `ev_idle_start`. -/
def ev_idle_start (w : ev_idle) : ev_idle := { w with active := true }

/-- `ev_idle_stop`. -/
def ev_idle_stop (w : ev_idle) : ev_idle := { w with active := false }

/-- `ev_async_start`. -/
def ev_async_start (w : ev_async) : ev_async := { w with active := true }

/-- `ev_async_stop`. -/
def ev_async_stop (w : ev_async) : ev_async := { w with active := false }

/-- The enabled socket-interest registrations contributed by an active io
watcher: libev watches exactly the events in the watcher's mask on its fd. -/
def ioRegs (w : ev_io) : List Reg :=
  (if w.events &&& EV_READ ≠ 0 then [Reg.ioRead w.fd] else [])
    ++ (if w.events &&& EV_WRITE ≠ 0 then [Reg.ioWrite w.fd] else [])

namespace LibevA

/-- Variant A adapter state (`natsLibevEvents`): connection handle, loop
handle, `ev_io` read watcher, `ev_idle` write watcher, `ev_async`
keep-active watcher.  `nc` and `loop` are opaque handles. -/
structure natsLibevEvents where
  nc : Nat
  loop : Nat
  read : ev_io
  write : ev_idle
  keepActive : ev_async
deriving DecidableEq, Repr

/-- `ev_io_toggle` of variant A: start or stop an io watcher. -/
def ev_io_toggle (w : ev_io) (flag : Bool) : ev_io :=
  if flag then ev_io_start w else ev_io_stop w

/-- `ev_idle_toggle` of variant A. -/
def ev_idle_toggle (w : ev_idle) (flag : Bool) : ev_idle :=
  if flag then ev_idle_start w else ev_idle_stop w

/-- `natsLibev_Read` of variant A: toggle the read watcher, then
`ev_async_send` on the keep-active watcher; always returns `NATS_OK`. -/
def natsLibev_Read (nle : natsLibevEvents) (add : Bool) :
    natsStatus × natsLibevEvents × List Ev :=
  (natsStatus.NATS_OK,
   { nle with read := ev_io_toggle nle.read add },
   [if add then Ev.readStart else Ev.readStop, Ev.asyncSend])

/-- `natsLibev_Write` of variant A: toggle the idle write watcher, then
`ev_async_send`; always returns `NATS_OK`. -/
def natsLibev_Write (nle : natsLibevEvents) (add : Bool) :
    natsStatus × natsLibevEvents × List Ev :=
  (natsStatus.NATS_OK,
   { nle with write := ev_idle_toggle nle.write add },
   [if add then Ev.writeStart else Ev.writeStop, Ev.asyncSend])

/-- `natsLibev_Attach` of variant A.  `userData` is the caller's slot
(`none` on first attach); `allocOk` is the allocation oracle for the
`malloc` call on the first-attach path. -/
def natsLibev_Attach (userData : Option natsLibevEvents) (loop : Nat)
    (nc : Nat) (socket : Int) (allocOk : Bool) :
    natsStatus × Option natsLibevEvents × List Ev :=
  match userData with
  | none =>
    if allocOk then
      let nle0 : natsLibevEvents :=
        { nc := nc, loop := loop,
          read := { fd := 0, events := 0, active := false },
          write := { active := false },
          keepActive := ev_async_start { active := false } }
      let nle1 := { nle0 with read := ev_io_set nle0.read socket EV_READ }
      let r := natsLibev_Read nle1 true
      (natsStatus.NATS_OK, some r.2.1,
       [Ev.alloc, Ev.asyncStart, Ev.readSet socket EV_READ]
         ++ r.2.2 ++ [Ev.idleSet])
    else
      (natsStatus.NATS_NO_MEMORY, none, [])
  | some nle =>
    let r0 := natsLibev_Read nle false
    let w0 := natsLibev_Write r0.2.1 false
    let nle1 := { w0.2.1 with read := ev_io_set w0.2.1.read socket EV_READ }
    let r1 := natsLibev_Read nle1 true
    (natsStatus.NATS_OK, some r1.2.1,
     r0.2.2 ++ w0.2.2 ++ [Ev.readSet socket EV_READ] ++ r1.2.2 ++ [Ev.idleSet])

/-- The adapter state just before `free` inside variant A's
`natsLibev_Detach`: both watchers toggled off, keep-active stopped. -/
def natsLibev_Detach_state (nle : natsLibevEvents) : natsLibevEvents :=
  let r := natsLibev_Read nle false
  let w := natsLibev_Write r.2.1 false
  { w.2.1 with keepActive := ev_async_stop w.2.1.keepActive }

/-- `natsLibev_Detach` of variant A: `natsLibev_Read(false)`,
`natsLibev_Write(false)`, `ev_async_stop`, `free`; returns `NATS_OK`.
The freed state is modelled by returning `none` for the slot. -/
def natsLibev_Detach (nle : natsLibevEvents) :
    natsStatus × Option natsLibevEvents × List Ev :=
  (natsStatus.NATS_OK, none,
   (natsLibev_Read nle false).2.2
     ++ (natsLibev_Write (natsLibev_Read nle false).2.1 false).2.2
     ++ [Ev.asyncStop, Ev.free])

/-- Variant A read-watcher dispatch callback: invokes the client's
process-read-ready hook on the bound connection, ignoring `revents`. -/
def natsLibev_ProcessReadEvent (nle : natsLibevEvents) (revents : Nat) :
    List Hook :=
  [Hook.processRead nle.nc]

/-- Variant A idle-watcher dispatch callback: invokes the client's
process-write-ready hook on the bound connection. -/
def natsLibev_ProcessWriteEvent (nle : natsLibevEvents) (revents : Nat) :
    List Hook :=
  [Hook.processWrite nle.nc]

/-- The registrations a variant A state keeps enabled with the reactor. -/
def regs (nle : natsLibevEvents) : List Reg :=
  (if nle.read.active then ioRegs nle.read else [])
    ++ (if nle.write.active then [Reg.idle] else [])
    ++ (if nle.keepActive.active then [Reg.async] else [])

end LibevA

namespace LibevB

/-- Variant B adapter state (`natsLibevEvents`): connection handle, loop
handle, and two `ev_io` watchers next to the `ev_async` keep-active one. -/
structure natsLibevEvents where
  nc : Nat
  loop : Nat
  read : ev_io
  write : ev_io
  keepActive : ev_async
deriving DecidableEq, Repr

/-- `ev_io_toggle` of variant B: start or stop an io watcher. -/
def ev_io_toggle (w : ev_io) (flag : Bool) : ev_io :=
  if flag then ev_io_start w else ev_io_stop w

/-- `natsLibev_Read` of variant B: toggle the read watcher; no
`ev_async_send`; always returns `NATS_OK`. -/
def natsLibev_Read (nle : natsLibevEvents) (add : Bool) :
    natsStatus × natsLibevEvents × List Ev :=
  (natsStatus.NATS_OK,
   { nle with read := ev_io_toggle nle.read add },
   [if add then Ev.readStart else Ev.readStop])

/-- `natsLibev_Write` of variant B: toggle the write io watcher; no
`ev_async_send`; always returns `NATS_OK`. -/
def natsLibev_Write (nle : natsLibevEvents) (add : Bool) :
    natsStatus × natsLibevEvents × List Ev :=
  (natsStatus.NATS_OK,
   { nle with write := ev_io_toggle nle.write add },
   [if add then Ev.writeStart else Ev.writeStop])

/-- `natsLibev_Attach` of variant B.  On reconnect the two watchers are
stopped directly with `ev_io_stop`; the read watcher is rebound and
started, the write watcher rebound for `EV_WRITE` but left stopped. -/
def natsLibev_Attach (userData : Option natsLibevEvents) (loop : Nat)
    (nc : Nat) (socket : Int) (allocOk : Bool) :
    natsStatus × Option natsLibevEvents × List Ev :=
  match userData with
  | none =>
    if allocOk then
      let nle0 : natsLibevEvents :=
        { nc := nc, loop := loop,
          read := { fd := 0, events := 0, active := false },
          write := { fd := 0, events := 0, active := false },
          keepActive := ev_async_start { active := false } }
      let nle1 := { nle0 with read := ev_io_start (ev_io_set nle0.read socket EV_READ) }
      let nle2 := { nle1 with write := ev_io_set nle1.write socket EV_WRITE }
      (natsStatus.NATS_OK, some nle2,
       [Ev.alloc, Ev.asyncStart, Ev.readSet socket EV_READ, Ev.readStart,
        Ev.writeSet socket EV_WRITE])
    else
      (natsStatus.NATS_NO_MEMORY, none, [])
  | some nle =>
    let nle0 := { nle with read := ev_io_stop nle.read,
                           write := ev_io_stop nle.write }
    let nle1 := { nle0 with read := ev_io_start (ev_io_set nle0.read socket EV_READ) }
    let nle2 := { nle1 with write := ev_io_set nle1.write socket EV_WRITE }
    (natsStatus.NATS_OK, some nle2,
     [Ev.readStop, Ev.writeStop, Ev.readSet socket EV_READ, Ev.readStart,
      Ev.writeSet socket EV_WRITE])

/-- The adapter state just before `free` inside variant B's
`natsLibev_Detach`: both io watchers stopped, keep-active stopped. -/
def natsLibev_Detach_state (nle : natsLibevEvents) : natsLibevEvents :=
  { nle with read := ev_io_stop nle.read,
             write := ev_io_stop nle.write,
             keepActive := ev_async_stop nle.keepActive }

/-- `natsLibev_Detach` of variant B: `ev_io_stop` on both watchers,
`ev_async_send`, `ev_async_stop`, `free`; returns `NATS_OK`. -/
def natsLibev_Detach (nle : natsLibevEvents) :
    natsStatus × Option natsLibevEvents × List Ev :=
  (natsStatus.NATS_OK, none,
   [Ev.readStop, Ev.writeStop, Ev.asyncSend, Ev.asyncStop, Ev.free])

/-- Variant B dispatch callback `natsLibev_ProcessEvent`: invokes the
process-read-ready hook when `revents` has the `EV_READ` bit, then the
process-write-ready hook when it has the `EV_WRITE` bit. -/
def natsLibev_ProcessEvent (nle : natsLibevEvents) (revents : Nat) :
    List Hook :=
  (if revents &&& EV_READ ≠ 0 then [Hook.processRead nle.nc] else [])
    ++ (if revents &&& EV_WRITE ≠ 0 then [Hook.processWrite nle.nc] else [])

/-- The registrations a variant B state keeps enabled with the reactor. -/
def regs (nle : natsLibevEvents) : List Reg :=
  (if nle.read.active then ioRegs nle.read else [])
    ++ (if nle.write.active then ioRegs nle.write else [])
    ++ (if nle.keepActive.active then [Reg.async] else [])

end LibevB

/-- A client-visible adapter call: the operation language over which the
two variants are compared. -/
inductive Op where
  | attach (loop : Nat) (nc : Nat) (socket : Int) (allocOk : Bool)
  | read (add : Bool)
  | write (add : Bool)
  | detach
deriving DecidableEq, Repr

namespace LibevA

/-- One client call against the variant A adapter.  Operations that the
client contract forbids on an empty slot (Read/Write/Detach before Attach
or after Detach) are skipped and record no status. -/
def step (s : Option natsLibevEvents) (op : Op) :
    Option natsLibevEvents × Option natsStatus :=
  match op with
  | Op.attach l n sock ok =>
    let r := natsLibev_Attach s l n sock ok
    (r.2.1, some r.1)
  | Op.read add =>
    match s with
    | none => (none, none)
    | some a => let r := natsLibev_Read a add; (some r.2.1, some r.1)
  | Op.write add =>
    match s with
    | none => (none, none)
    | some a => let r := natsLibev_Write a add; (some r.2.1, some r.1)
  | Op.detach =>
    match s with
    | none => (none, none)
    | some a => let r := natsLibev_Detach a; (r.2.1, some r.1)

/-- Run a sequence of client calls against the variant A adapter,
collecting the returned statuses. -/
def run (s : Option natsLibevEvents) : List Op → Option natsLibevEvents × List natsStatus
  | [] => (s, [])
  | op :: ops =>
    let r := step s op
    let rest := run r.1 ops
    (rest.1, r.2.toList ++ rest.2)

/-- The sockets on which a variant A slot holds enabled read interest. -/
def readInterests (s : Option natsLibevEvents) : List Int :=
  match s with
  | none => []
  | some nle =>
    (regs nle).filterMap fun r =>
      match r with
      | Reg.ioRead fd => some fd
      | _ => none

/-- The sockets on which a variant A slot holds enabled write interest. -/
def writeInterests (s : Option natsLibevEvents) : List Int :=
  match s with
  | none => []
  | some nle =>
    (regs nle).filterMap fun r =>
      match r with
      | Reg.ioWrite fd => some fd
      | _ => none

/-- Whether the slot's write watcher is currently toggled on. -/
def writeActive (s : Option natsLibevEvents) : Bool :=
  match s with
  | none => false
  | some nle => nle.write.active

end LibevA

namespace LibevB

/-- One client call against the variant B adapter (same skipping rule as
variant A for calls the client contract forbids on an empty slot). -/
def step (s : Option natsLibevEvents) (op : Op) :
    Option natsLibevEvents × Option natsStatus :=
  match op with
  | Op.attach l n sock ok =>
    let r := natsLibev_Attach s l n sock ok
    (r.2.1, some r.1)
  | Op.read add =>
    match s with
    | none => (none, none)
    | some a => let r := natsLibev_Read a add; (some r.2.1, some r.1)
  | Op.write add =>
    match s with
    | none => (none, none)
    | some a => let r := natsLibev_Write a add; (some r.2.1, some r.1)
  | Op.detach =>
    match s with
    | none => (none, none)
    | some a => let r := natsLibev_Detach a; (r.2.1, some r.1)

/-- Run a sequence of client calls against the variant B adapter. -/
def run (s : Option natsLibevEvents) : List Op → Option natsLibevEvents × List natsStatus
  | [] => (s, [])
  | op :: ops =>
    let r := step s op
    let rest := run r.1 ops
    (rest.1, r.2.toList ++ rest.2)

/-- The sockets on which a variant B slot holds enabled read interest. -/
def readInterests (s : Option natsLibevEvents) : List Int :=
  match s with
  | none => []
  | some nle =>
    (regs nle).filterMap fun r =>
      match r with
      | Reg.ioRead fd => some fd
      | _ => none

/-- The sockets on which a variant B slot holds enabled write interest. -/
def writeInterests (s : Option natsLibevEvents) : List Int :=
  match s with
  | none => []
  | some nle =>
    (regs nle).filterMap fun r =>
      match r with
      | Reg.ioWrite fd => some fd
      | _ => none

/-- Whether the slot's write watcher is currently toggled on. -/
def writeActive (s : Option natsLibevEvents) : Bool :=
  match s with
  | none => false
  | some nle => nle.write.active

end LibevB

/-- Concrete attached variant A state used by concrete-input theorems. -/
def nleA1 : LibevA.natsLibevEvents :=
  { nc := 1, loop := 1,
    read := { fd := 4, events := EV_READ, active := true },
    write := { active := false },
    keepActive := { active := true } }

/-- Concrete attached variant B state used by concrete-input theorems. -/
def nleB1 : LibevB.natsLibevEvents :=
  { nc := 7, loop := 3,
    read := { fd := 5, events := EV_READ, active := true },
    write := { fd := 5, events := EV_WRITE, active := false },
    keepActive := { active := true } }

/-- Simulation relation between attached states of the two variants: same
handles, identical read watcher, same write-watcher toggle, identical
keep-active watcher; variant B's write watcher always carries `EV_WRITE`. -/
def ABRel (a : LibevA.natsLibevEvents) (b : LibevB.natsLibevEvents) : Prop :=
  a.nc = b.nc ∧ a.loop = b.loop ∧ a.read = b.read
    ∧ a.write.active = b.write.active ∧ a.keepActive = b.keepActive
    ∧ b.write.events = EV_WRITE

/-- Simulation relation lifted to the caller's (possibly empty) slot. -/
def OptABRel : Option LibevA.natsLibevEvents → Option LibevB.natsLibevEvents → Prop
  | none, none => True
  | some a, some b => ABRel a b
  | _, _ => False

/-- One client call preserves the simulation relation and produces the
same status in both variants. -/
theorem step_rel (sa : Option LibevA.natsLibevEvents)
    (sb : Option LibevB.natsLibevEvents) (op : Op) (h : OptABRel sa sb) :
    OptABRel (LibevA.step sa op).1 (LibevB.step sb op).1
      ∧ (LibevA.step sa op).2 = (LibevB.step sb op).2 := by
  cases op with
  | attach l n sock ok =>
    cases sa with
    | none =>
      cases sb with
      | some b => exact absurd h (by simp [OptABRel])
      | none =>
        cases ok <;>
          simp [LibevA.step, LibevB.step, LibevA.natsLibev_Attach,
            LibevB.natsLibev_Attach, LibevA.natsLibev_Read, LibevA.ev_io_toggle,
            ev_io_set, ev_io_start, ev_async_start, OptABRel, ABRel]
    | some a =>
      cases sb with
      | none => exact absurd h (by simp [OptABRel])
      | some b =>
        obtain ⟨h1, h2, h3, h4, h5, h6⟩ := h
        simp [LibevA.step, LibevB.step, LibevA.natsLibev_Attach,
          LibevB.natsLibev_Attach, LibevA.natsLibev_Read, LibevA.natsLibev_Write,
          LibevA.ev_io_toggle, LibevA.ev_idle_toggle, ev_io_set, ev_io_start,
          ev_io_stop, ev_idle_stop, OptABRel, ABRel, h1, h2, h5]
  | read add =>
    cases sa with
    | none =>
      cases sb with
      | some b => exact absurd h (by simp [OptABRel])
      | none => exact ⟨trivial, rfl⟩
    | some a =>
      cases sb with
      | none => exact absurd h (by simp [OptABRel])
      | some b =>
        obtain ⟨h1, h2, h3, h4, h5, h6⟩ := h
        simp [LibevA.step, LibevB.step, LibevA.natsLibev_Read,
          LibevB.natsLibev_Read, LibevA.ev_io_toggle, LibevB.ev_io_toggle,
          ev_io_start, ev_io_stop, OptABRel, ABRel, h1, h2, h3, h4, h5, h6]
  | write add =>
    cases sa with
    | none =>
      cases sb with
      | some b => exact absurd h (by simp [OptABRel])
      | none => exact ⟨trivial, rfl⟩
    | some a =>
      cases sb with
      | none => exact absurd h (by simp [OptABRel])
      | some b =>
        obtain ⟨h1, h2, h3, h4, h5, h6⟩ := h
        cases add <;>
          simp [LibevA.step, LibevB.step, LibevA.natsLibev_Write,
            LibevB.natsLibev_Write, LibevA.ev_idle_toggle, LibevB.ev_io_toggle,
            ev_io_start, ev_io_stop, ev_idle_start, ev_idle_stop,
            OptABRel, ABRel, h1, h2, h3, h4, h5, h6]
  | detach =>
    cases sa with
    | none =>
      cases sb with
      | some b => exact absurd h (by simp [OptABRel])
      | none => exact ⟨trivial, rfl⟩
    | some a =>
      cases sb with
      | none => exact absurd h (by simp [OptABRel])
      | some b =>
        simp [LibevA.step, LibevB.step, LibevA.natsLibev_Detach,
          LibevB.natsLibev_Detach, OptABRel]

/-- A whole client call sequence preserves the simulation relation and
produces the same status list in both variants. -/
theorem run_rel (ops : List Op) : ∀ sa sb, OptABRel sa sb →
    OptABRel (LibevA.run sa ops).1 (LibevB.run sb ops).1
      ∧ (LibevA.run sa ops).2 = (LibevB.run sb ops).2 := by
  induction ops with
  | nil => exact fun sa sb h => ⟨h, rfl⟩
  | cons op ops ih =>
    intro sa sb h
    obtain ⟨h1, h2⟩ := step_rel sa sb op h
    obtain ⟨h3, h4⟩ := ih _ _ h1
    exact ⟨h3, by simp [LibevA.run, LibevB.run, h2, h4]⟩

/-- Related slots expose the same enabled read-interest registrations and
the same write-watcher toggle. -/
theorem optRel_obs (sa : Option LibevA.natsLibevEvents)
    (sb : Option LibevB.natsLibevEvents) (h : OptABRel sa sb) :
    LibevA.readInterests sa = LibevB.readInterests sb
      ∧ LibevA.writeActive sa = LibevB.writeActive sb := by
  cases sa with
  | none =>
    cases sb with
    | some b => exact absurd h (by simp [OptABRel])
    | none => exact ⟨rfl, rfl⟩
  | some a =>
    cases sb with
    | none => exact absurd h (by simp [OptABRel])
    | some b =>
      obtain ⟨h1, h2, h3, h4, h5, h6⟩ := h
      refine ⟨?_, by simp [LibevA.writeActive, LibevB.writeActive, h4]⟩
      cases hr : b.read.active <;> cases hw : b.write.active <;>
        cases hk : b.keepActive.active <;>
          simp [LibevA.readInterests, LibevB.readInterests, LibevA.regs,
            LibevB.regs, ioRegs, h3, h4, h5, h6, hr, hw, hk,
            EV_READ, EV_WRITE, List.filterMap_append]

/-- C1 (counterexample): in variant B, `natsLibev_Read` does not signal the
wake primitive: its call trace contains no `ev_async_send`, refuting the
claim that both variants signal the wake primitive on every Read. -/
theorem claim_C1_counterexample :
    Ev.asyncSend ∉ (LibevB.natsLibev_Read nleB1 true).2.2 := by decide

/-- C1 (amended): in variant A every `natsLibev_Read`/`natsLibev_Write`
signals the wake primitive immediately after toggling its watcher, and
every Attach (first or reconnect) signals it immediately after activating
the read watcher; in variant B, Read, Write and Attach never signal the
wake primitive. -/
theorem claim_C1_amended :
    (∀ (nle : LibevA.natsLibevEvents) (add : Bool),
        (LibevA.natsLibev_Read nle add).2.2
          = [if add then Ev.readStart else Ev.readStop, Ev.asyncSend])
  ∧ (∀ (nle : LibevA.natsLibevEvents) (add : Bool),
        (LibevA.natsLibev_Write nle add).2.2
          = [if add then Ev.writeStart else Ev.writeStop, Ev.asyncSend])
  ∧ (∀ (l n : Nat) (s : Int),
        (LibevA.natsLibev_Attach none l n s true).2.2
          = [Ev.alloc, Ev.asyncStart, Ev.readSet s EV_READ, Ev.readStart,
             Ev.asyncSend, Ev.idleSet])
  ∧ (∀ (nle : LibevA.natsLibevEvents) (l n : Nat) (s : Int) (a : Bool),
        (LibevA.natsLibev_Attach (some nle) l n s a).2.2
          = [Ev.readStop, Ev.asyncSend, Ev.writeStop, Ev.asyncSend,
             Ev.readSet s EV_READ, Ev.readStart, Ev.asyncSend, Ev.idleSet])
  ∧ (∀ (nle : LibevB.natsLibevEvents) (add : Bool),
        Ev.asyncSend ∉ (LibevB.natsLibev_Read nle add).2.2)
  ∧ (∀ (nle : LibevB.natsLibevEvents) (add : Bool),
        Ev.asyncSend ∉ (LibevB.natsLibev_Write nle add).2.2)
  ∧ (∀ (ud : Option LibevB.natsLibevEvents) (l n : Nat) (s : Int) (a : Bool),
        Ev.asyncSend ∉ (LibevB.natsLibev_Attach ud l n s a).2.2) := by
  refine ⟨fun nle add => rfl, fun nle add => rfl, fun l n s => rfl,
    fun nle l n s a => rfl, ?_, ?_, ?_⟩
  · intro nle add; cases add <;> simp [LibevB.natsLibev_Read]
  · intro nle add; cases add <;> simp [LibevB.natsLibev_Write]
  · intro ud l n s a
    cases ud <;> cases a <;> simp [LibevB.natsLibev_Attach]

/-- C2 (counterexample): in variant A the write watcher is an idle watcher
with no socket binding: the write watcher produced by Attach is identical
for sockets 5 and 7, and the registrations after Attach contain no
socket write interest, refuting "the write watcher is bound to S for
write-readiness ... in both adapter variants". -/
theorem claim_C2_counterexample :
    ((LibevA.natsLibev_Attach none 0 0 5 true).2.1.map fun st => st.write)
      = ((LibevA.natsLibev_Attach none 0 0 7 true).2.1.map fun st => st.write)
    ∧ ((LibevA.natsLibev_Attach none 0 0 5 true).2.1.map LibevA.regs)
        = some [Reg.ioRead 5, Reg.async] := by decide

/-- C2 (amended): after every successful Attach (first or reconnect) with
socket `s`, in both variants the read watcher is bound to `s` for
read-readiness and is active, and the write watcher is inactive; in
variant B the write watcher is additionally bound to `s` for
write-readiness, while in variant A it is an idle watcher with no socket
binding. -/
theorem claim_C2_amended :
    (∀ (l n : Nat) (s : Int),
        ((LibevA.natsLibev_Attach none l n s true).2.1.map
            fun st => (st.read, st.write.active))
          = some ({ fd := s, events := EV_READ, active := true }, false))
  ∧ (∀ (nle : LibevA.natsLibevEvents) (l n : Nat) (s : Int) (a : Bool),
        ((LibevA.natsLibev_Attach (some nle) l n s a).2.1.map
            fun st => (st.read, st.write.active))
          = some ({ fd := s, events := EV_READ, active := true }, false))
  ∧ (∀ (l n : Nat) (s : Int),
        ((LibevB.natsLibev_Attach none l n s true).2.1.map
            fun st => (st.read, st.write))
          = some ({ fd := s, events := EV_READ, active := true },
                  { fd := s, events := EV_WRITE, active := false }))
  ∧ (∀ (nle : LibevB.natsLibevEvents) (l n : Nat) (s : Int) (a : Bool),
        ((LibevB.natsLibev_Attach (some nle) l n s a).2.1.map
            fun st => (st.read, st.write))
          = some ({ fd := s, events := EV_READ, active := true },
                  { fd := s, events := EV_WRITE, active := false })) :=
  ⟨fun l n s => rfl, fun nle l n s a => rfl, fun l n s => rfl,
   fun nle l n s a => rfl⟩

/-- C3 (counterexample): a reconnect Attach supplying new reactor and
connection handles leaves the stored handles at their first-Attach values,
refuting "subsequent operations use the handles supplied at the most
recent Attach". -/
theorem claim_C3_counterexample :
    ((LibevA.natsLibev_Attach (some nleA1) 2 2 5 true).2.1.map
        fun st => (st.nc, st.loop)) ≠ some (2, 2)
    ∧ ((LibevB.natsLibev_Attach (some nleB1) 9 9 6 true).2.1.map
        fun st => (st.nc, st.loop)) ≠ some (9, 9) := by decide

/-- C3 (amended): a reconnect Attach keeps the reactorHandle and
connectionHandle stored at the first Attach, ignoring the ones supplied
at reconnect; all subsequent operations and readiness dispatches use the
stored (first-Attach) handles.  Only the socket is taken from the most
recent Attach. -/
theorem claim_C3_amended :
    (∀ (nle : LibevA.natsLibevEvents) (l n : Nat) (s : Int) (a : Bool),
        ((LibevA.natsLibev_Attach (some nle) l n s a).2.1.map
            fun st => (st.nc, st.loop)) = some (nle.nc, nle.loop))
  ∧ (∀ (nle : LibevB.natsLibevEvents) (l n : Nat) (s : Int) (a : Bool),
        ((LibevB.natsLibev_Attach (some nle) l n s a).2.1.map
            fun st => (st.nc, st.loop)) = some (nle.nc, nle.loop))
  ∧ (∀ (nle : LibevA.natsLibevEvents) (r : Nat),
        LibevA.natsLibev_ProcessReadEvent nle r = [Hook.processRead nle.nc])
  ∧ (∀ (nle : LibevA.natsLibevEvents) (r : Nat),
        LibevA.natsLibev_ProcessWriteEvent nle r = [Hook.processWrite nle.nc])
  ∧ (∀ (nle : LibevB.natsLibevEvents),
        LibevB.natsLibev_ProcessEvent nle (EV_READ ||| EV_WRITE)
          = [Hook.processRead nle.nc, Hook.processWrite nle.nc]) :=
  ⟨fun nle l n s a => rfl, fun nle l n s a => rfl, fun nle r => rfl,
   fun nle r => rfl, fun nle => rfl⟩

/-- C4: a reconnect Attach (non-null prior state) allocates no new
AdapterState (no `alloc` in its trace; the returned record reuses the
prior one's handles and keep-active watcher) and deactivates both
watchers before the read watcher is rebound and restarted, in both
variants: the full call traces are, in order, stop read, stop write,
rebind read, start read. -/
theorem claim_C4_reconnect_reuse :
    (∀ (nle : LibevA.natsLibevEvents) (l n : Nat) (s : Int) (a : Bool),
        LibevA.natsLibev_Attach (some nle) l n s a
          = (natsStatus.NATS_OK,
             some { nc := nle.nc, loop := nle.loop,
                    read := { fd := s, events := EV_READ, active := true },
                    write := { active := false },
                    keepActive := nle.keepActive },
             [Ev.readStop, Ev.asyncSend, Ev.writeStop, Ev.asyncSend,
              Ev.readSet s EV_READ, Ev.readStart, Ev.asyncSend, Ev.idleSet])
        ∧ Ev.alloc ∉ (LibevA.natsLibev_Attach (some nle) l n s a).2.2)
  ∧ (∀ (nle : LibevB.natsLibevEvents) (l n : Nat) (s : Int) (a : Bool),
        LibevB.natsLibev_Attach (some nle) l n s a
          = (natsStatus.NATS_OK,
             some { nc := nle.nc, loop := nle.loop,
                    read := { fd := s, events := EV_READ, active := true },
                    write := { fd := s, events := EV_WRITE, active := false },
                    keepActive := nle.keepActive },
             [Ev.readStop, Ev.writeStop, Ev.readSet s EV_READ, Ev.readStart,
              Ev.writeSet s EV_WRITE])
        ∧ Ev.alloc ∉ (LibevB.natsLibev_Attach (some nle) l n s a).2.2) := by
  refine ⟨fun nle l n s a => ⟨rfl, ?_⟩, fun nle l n s a => ⟨rfl, ?_⟩⟩
  · simp [LibevA.natsLibev_Attach, LibevA.natsLibev_Read, LibevA.natsLibev_Write]
  · simp [LibevB.natsLibev_Attach]

/-- C5: for every attached state (any watcher activation whatsoever),
Detach returns `NATS_OK`, frees the AdapterState, deactivates both
watchers and stops the wake primitive, so that the state just before
`free` holds zero enabled registrations with the reactor, in both
variants. -/
theorem claim_C5_detach_clean :
    (∀ (nle : LibevA.natsLibevEvents),
        LibevA.natsLibev_Detach nle
          = (natsStatus.NATS_OK, none,
             [Ev.readStop, Ev.asyncSend, Ev.writeStop, Ev.asyncSend,
              Ev.asyncStop, Ev.free])
        ∧ LibevA.regs (LibevA.natsLibev_Detach_state nle) = [])
  ∧ (∀ (nle : LibevB.natsLibevEvents),
        LibevB.natsLibev_Detach nle
          = (natsStatus.NATS_OK, none,
             [Ev.readStop, Ev.writeStop, Ev.asyncSend, Ev.asyncStop, Ev.free])
        ∧ LibevB.regs (LibevB.natsLibev_Detach_state nle) = []) :=
  ⟨fun nle => ⟨rfl, rfl⟩, fun nle => ⟨rfl, rfl⟩⟩

/-- C6: in both variants and for every attached state and boolean, Read
and Write return `NATS_OK`, toggling twice with the same boolean yields
the same state as toggling once, and Read(true) immediately followed by
Read(false) leaves the read watcher inactive whatever its prior state. -/
theorem claim_C6_idempotent :
    (∀ (nle : LibevA.natsLibevEvents) (b : Bool),
        (LibevA.natsLibev_Read nle b).1 = natsStatus.NATS_OK
        ∧ (LibevA.natsLibev_Write nle b).1 = natsStatus.NATS_OK
        ∧ (LibevA.natsLibev_Read (LibevA.natsLibev_Read nle b).2.1 b).2.1
            = (LibevA.natsLibev_Read nle b).2.1
        ∧ (LibevA.natsLibev_Write (LibevA.natsLibev_Write nle b).2.1 b).2.1
            = (LibevA.natsLibev_Write nle b).2.1
        ∧ (LibevA.natsLibev_Read
              (LibevA.natsLibev_Read nle true).2.1 false).2.1.read.active
            = false)
  ∧ (∀ (nle : LibevB.natsLibevEvents) (b : Bool),
        (LibevB.natsLibev_Read nle b).1 = natsStatus.NATS_OK
        ∧ (LibevB.natsLibev_Write nle b).1 = natsStatus.NATS_OK
        ∧ (LibevB.natsLibev_Read (LibevB.natsLibev_Read nle b).2.1 b).2.1
            = (LibevB.natsLibev_Read nle b).2.1
        ∧ (LibevB.natsLibev_Write (LibevB.natsLibev_Write nle b).2.1 b).2.1
            = (LibevB.natsLibev_Write nle b).2.1
        ∧ (LibevB.natsLibev_Read
              (LibevB.natsLibev_Read nle true).2.1 false).2.1.read.active
            = false) := by
  constructor <;> intro nle b <;> cases b <;>
    exact ⟨rfl, rfl, rfl, rfl, rfl⟩

/-- C7: a first Attach (empty slot) whose allocation fails returns
`NATS_NO_MEMORY`, leaves the caller's slot empty and makes no call at all
against the reactor (empty trace: no watcher or wake registration), in
both variants. -/
theorem claim_C7_alloc_failure :
    (∀ (l n : Nat) (s : Int),
        LibevA.natsLibev_Attach none l n s false
          = (natsStatus.NATS_NO_MEMORY, none, []))
  ∧ (∀ (l n : Nat) (s : Int),
        LibevB.natsLibev_Attach none l n s false
          = (natsStatus.NATS_NO_MEMORY, none, [])) :=
  ⟨fun l n s => rfl, fun l n s => rfl⟩

/-- C8 (counterexample): after Attach followed by Write(true), variant A
holds no socket write-interest registration (its write watcher is an idle
watcher) while variant B holds write interest on the socket, refuting
"the two variants leave the reactor with the same set of enabled
read-interest and write-interest registrations". -/
theorem claim_C8_counterexample :
    LibevA.writeInterests
        (LibevA.run none [Op.attach 0 0 5 true, Op.write true]).1
      ≠ LibevB.writeInterests
        (LibevB.run none [Op.attach 0 0 5 true, Op.write true]).1 := by
  decide

/-- C8 (amended): for every client call sequence the two variants return
the same status list, leave the reactor with the same enabled
read-interest registrations, and leave their write watchers with the same
toggle; they differ in how enabled write interest is realised (variant A
uses an idle watcher carrying no socket write-interest registration,
variant B a socket-bound write-interest registration). -/
theorem claim_C8_amended (ops : List Op) :
    (LibevA.run none ops).2 = (LibevB.run none ops).2
      ∧ LibevA.readInterests (LibevA.run none ops).1
          = LibevB.readInterests (LibevB.run none ops).1
      ∧ LibevA.writeActive (LibevA.run none ops).1
          = LibevB.writeActive (LibevB.run none ops).1 := by
  obtain ⟨h1, h2⟩ := run_rel ops none none trivial
  obtain ⟨h3, h4⟩ := optRel_obs _ _ h1
  exact ⟨h2, h3, h4⟩

/-- C9: variant B's dispatch callback invokes the process-read-ready hook
exactly once iff the delivered bitmask has the read bit and the
process-write-ready hook exactly once iff it has the write bit; variant
A's read-watcher callback, whose deliveries are masked by its `EV_READ`
interest, invokes exactly the read hook once, and its idle-watcher
callback exactly the write hook once — in each case on the bound
connection with no duplicate invocation. -/
theorem claim_C9_dispatch :
    (∀ (nle : LibevB.natsLibevEvents) (revents : Nat),
        (LibevB.natsLibev_ProcessEvent nle revents).count
            (Hook.processRead nle.nc)
          = (if revents &&& EV_READ ≠ 0 then 1 else 0)
        ∧ (LibevB.natsLibev_ProcessEvent nle revents).count
            (Hook.processWrite nle.nc)
          = (if revents &&& EV_WRITE ≠ 0 then 1 else 0))
  ∧ (∀ (nle : LibevA.natsLibevEvents) (raw : Nat),
        EV_READ &&& raw ≠ 0 →
          LibevA.natsLibev_ProcessReadEvent nle (EV_READ &&& raw)
            = [Hook.processRead nle.nc])
  ∧ (∀ (nle : LibevA.natsLibevEvents) (raw : Nat),
        LibevA.natsLibev_ProcessWriteEvent nle raw
          = [Hook.processWrite nle.nc]) := by
  refine ⟨?_, fun nle raw h => rfl, fun nle raw => rfl⟩
  intro nle revents
  by_cases hr : revents &&& EV_READ ≠ 0 <;>
    by_cases hw : revents &&& EV_WRITE ≠ 0 <;>
      simp [LibevB.natsLibev_ProcessEvent, hr, hw, List.count_append,
        List.count_cons, List.count_nil]

/-- C9 (witness): the variant A read-watcher callback on a masked
delivery with the read bit set invokes the read hook exactly once. -/
theorem claim_C9_dispatch_witness :
    LibevA.natsLibev_ProcessReadEvent nleA1 (EV_READ &&& 5)
      = [Hook.processRead 1] :=
  claim_C9_dispatch.2.1 nleA1 5 (by decide)

/-- C10: Read only toggles the read watcher (connection handle, loop
handle, write watcher, keep-active watcher and the read watcher's socket
binding are unchanged) and Write only toggles the write watcher,
symmetrically; neither empties or reallocates the caller's slot — in both
variants. -/
theorem claim_C10_frame :
    (∀ (nle : LibevA.natsLibevEvents) (b : Bool),
        ((LibevA.natsLibev_Read nle b).2.1.nc = nle.nc
          ∧ (LibevA.natsLibev_Read nle b).2.1.loop = nle.loop
          ∧ (LibevA.natsLibev_Read nle b).2.1.write = nle.write
          ∧ (LibevA.natsLibev_Read nle b).2.1.keepActive = nle.keepActive
          ∧ (LibevA.natsLibev_Read nle b).2.1.read.fd = nle.read.fd
          ∧ (LibevA.natsLibev_Read nle b).2.1.read.events = nle.read.events)
        ∧ ((LibevA.natsLibev_Write nle b).2.1.nc = nle.nc
          ∧ (LibevA.natsLibev_Write nle b).2.1.loop = nle.loop
          ∧ (LibevA.natsLibev_Write nle b).2.1.read = nle.read
          ∧ (LibevA.natsLibev_Write nle b).2.1.keepActive = nle.keepActive)
        ∧ (LibevA.step (some nle) (Op.read b)).1.isSome = true
        ∧ (LibevA.step (some nle) (Op.write b)).1.isSome = true)
  ∧ (∀ (nle : LibevB.natsLibevEvents) (b : Bool),
        ((LibevB.natsLibev_Read nle b).2.1.nc = nle.nc
          ∧ (LibevB.natsLibev_Read nle b).2.1.loop = nle.loop
          ∧ (LibevB.natsLibev_Read nle b).2.1.write = nle.write
          ∧ (LibevB.natsLibev_Read nle b).2.1.keepActive = nle.keepActive
          ∧ (LibevB.natsLibev_Read nle b).2.1.read.fd = nle.read.fd
          ∧ (LibevB.natsLibev_Read nle b).2.1.read.events = nle.read.events)
        ∧ ((LibevB.natsLibev_Write nle b).2.1.nc = nle.nc
          ∧ (LibevB.natsLibev_Write nle b).2.1.loop = nle.loop
          ∧ (LibevB.natsLibev_Write nle b).2.1.read = nle.read
          ∧ (LibevB.natsLibev_Write nle b).2.1.keepActive = nle.keepActive
          ∧ (LibevB.natsLibev_Write nle b).2.1.write.fd = nle.write.fd
          ∧ (LibevB.natsLibev_Write nle b).2.1.write.events
              = nle.write.events)
        ∧ (LibevB.step (some nle) (Op.read b)).1.isSome = true
        ∧ (LibevB.step (some nle) (Op.write b)).1.isSome = true) := by
  constructor
  · intro nle b
    cases b <;>
      exact ⟨⟨rfl, rfl, rfl, rfl, rfl, rfl⟩, ⟨rfl, rfl, rfl, rfl⟩, rfl, rfl⟩
  · intro nle b
    cases b <;>
      exact ⟨⟨rfl, rfl, rfl, rfl, rfl, rfl⟩,
        ⟨rfl, rfl, rfl, rfl, rfl, rfl⟩, rfl, rfl⟩
